import Mathlib

/-!
Shallow embedding of the auto-update coordinator in
`src/src-tauri/src/main.rs` (a Tauri shell).

The Rust file defines three `#[tauri::command]` functions —
`check_for_updates`, `download_and_install_update`, `open_external` — and a
`main` whose `setup` hook spawns one background update check.  The external
collaborators (the updater plugin's `check()`, the download machinery, the
event emitter) are opaque async calls; each is modelled by the outcome the
environment supplies for it, and the command bodies are translated
branch-for-branch from the Rust `match` expressions.
-/

deriving instance DecidableEq for Except

/-- The candidate release returned by `updater.check()`: in the Rust code the
fields read are `update.version : String` and `update.body : Option<String>`. -/
structure Update where
  version : String
  body : Option String
  deriving Repr, DecidableEq

/-- `struct UpdatePayload { message: String, version: String }` — the payload
serialized into the `update-available` event. -/
structure UpdatePayload where
  message : String
  version : String
  deriving Repr, DecidableEq

/-- The named events the Rust code can hand to `app.emit`, with their
payloads: `update-available {message, version}`, `update-download-started {}`,
and the further event names the spec lists (`update-download-progress`,
`update-installed`, `update-failed`), so that their absence from a run's
event list is expressible. -/
inductive Event where
  | updateAvailable (payload : UpdatePayload)
  | downloadStarted
  | downloadProgress (bytesTransferred : Nat) (totalBytes : Option Nat)
  | updateInstalled (version : String)
  | updateFailed (reason : String)
  deriving Repr, DecidableEq

/-- Recognizes an `update-installed` event. -/
def Event.isInstalledEvent : Event → Bool
  | Event.updateInstalled _ => true
  | _ => false

/-- Recognizes an `update-failed` event. -/
def Event.isFailedEvent : Event → Bool
  | Event.updateFailed _ => true
  | _ => false

/-- Recognizes an `update-download-progress` event. -/
def Event.isProgressEvent : Event → Bool
  | Event.downloadProgress _ _ => true
  | _ => false

/-- Recognizes an `update-download-started` event. -/
def Event.isDownloadStartedEvent : Event → Bool
  | Event.downloadStarted => true
  | _ => false

/-- `app.emit(name, payload)`: hands the event to the sink and reports whether
the emit succeeded (`emitOk` is the environment's answer).  The event reaches
the sink in either case; the `Result` is what the Rust code discards with
`.ok()`. -/
def emitEvent (emitOk : Bool) (e : Event) : Except String Unit × List Event :=
  (if emitOk then Except.ok () else Except.error "emit failed", [e])

/-- Environment of one `check_for_updates` invocation: the outcome of
`app.updater()`, the outcome of `updater.check().await`
(`Ok(Some update)` exactly when the release source reports a version newer
than the running one), and whether `app.emit` succeeds. -/
structure CheckEnv where
  updater : Except String Unit
  checkResult : Except String (Option Update)
  emitOk : Bool
  deriving Repr, DecidableEq

/-- `check_for_updates` from `src/src-tauri/src/main.rs`: obtains the updater
(propagating its error as a string), matches on `updater.check().await`;
on `Ok(Some(update))` emits `update-available {message: body, version}`
(discarding the emit result via `.ok()`) and returns
`Ok("Update available: {version}")`; on `Ok(None)` returns
`Ok("No updates available")`; on `Err(e)` returns `Err(e)`.
Returns the command's `Result` together with the events handed to the sink. -/
def check_for_updates (env : CheckEnv) : Except String String × List Event :=
  match env.updater with
  | Except.error e => (Except.error e, [])
  | Except.ok _ =>
    match env.checkResult with
    | Except.ok (some update) =>
        let version := update.version
        let body := update.body.getD ""
        let emitted := emitEvent env.emitOk (Event.updateAvailable ⟨body, version⟩)
        (Except.ok ("Update available: " ++ version), emitted.2)
    | Except.ok none => (Except.ok "No updates available", [])
    | Except.error e => (Except.error e, [])

/-- The progress callback passed to `update.download_and_install`: its body is
empty (`|_event, _data| { /* can emit progress events here */ }`), so it emits
no events whatever its arguments are. -/
def progressCallback (_event : Nat) (_data : Option Nat) : List Event := []

/-- The download phase of `update.download_and_install`: the command supplies
no resume offset or cached partial artifact, so the transfer begins at byte 0;
each received chunk is fed to the progress callback.  Returns the total bytes
transferred (accumulated from 0) and the per-invocation callback outputs. -/
def runDownload (chunks : List Nat) : Nat × List (List Event) :=
  (chunks.foldl (fun acc c => acc + c) 0,
   chunks.map (fun c => progressCallback c none))

/-- Environment of one `download_and_install_update` invocation: outcomes of
`app.updater()` and of this call's own `updater.check().await`, whether
`app.emit` succeeds, the chunk sizes the stream delivers, and the outcome of
`update.download_and_install(..).await`. -/
structure InstallEnv where
  updater : Except String Unit
  checkResult : Except String (Option Update)
  emitOk : Bool
  chunks : List Nat
  downloadResult : Except String Unit
  deriving Repr, DecidableEq

/-- Observation of one `download_and_install_update` run: the command's
returned `Result`, the events handed to the sink, the candidate this call
passed to `download_and_install` (if the download phase was entered), and the
byte offset the transfer started from (`some 0` iff a transfer started: the
command passes no resume state, so a started transfer begins at byte 0). -/
structure InstallRun where
  result : Except String String
  events : List Event
  candidate : Option Update
  startOffset : Option Nat
  deriving Repr, DecidableEq

/-- `download_and_install_update` from `src/src-tauri/src/main.rs`: obtains
the updater, performs its own `updater.check().await`; on `Ok(Some(update))`
emits `update-download-started {}` (discarding the emit result via `.ok()`),
runs `update.download_and_install(progressCallback).await`, propagates its
error with `?`, and on success returns
`Ok("Update downloaded and installed successfully")`; on `Ok(None)` returns
`Ok("No updates available")`; on `Err(e)` returns `Err(e)`. -/
def download_and_install_update (env : InstallEnv) : InstallRun :=
  match env.updater with
  | Except.error e => ⟨Except.error e, [], none, none⟩
  | Except.ok _ =>
    match env.checkResult with
    | Except.ok (some update) =>
        let started := emitEvent env.emitOk Event.downloadStarted
        let dl := runDownload env.chunks
        let evts := started.2 ++ dl.2.flatten
        match env.downloadResult with
        | Except.ok _ =>
            ⟨Except.ok "Update downloaded and installed successfully",
             evts, some update, some 0⟩
        | Except.error e => ⟨Except.error e, evts, some update, some 0⟩
    | Except.ok none => ⟨Except.ok "No updates available", [], none, none⟩
    | Except.error e => ⟨Except.error e, [], none, none⟩

/-- Two sequential `download_and_install_update` invocations.  The command
functions keep no state between calls (no candidate cache, no partial
artifact), so each run is a function of its own environment alone. -/
def install_twice (e1 e2 : InstallEnv) : InstallRun × InstallRun :=
  (download_and_install_update e1, download_and_install_update e2)

/-- A `check_for_updates` call followed by a `download_and_install_update`
call.  `check_for_updates` writes no state, so the install run is a function
of its own environment alone. -/
def check_then_install (c : CheckEnv) (i : InstallEnv) :
    (Except String String × List Event) × InstallRun :=
  (check_for_updates c, download_and_install_update i)

/-- Two sequential `check_for_updates` invocations; the command keeps no state
between calls, so neither run depends on the other. -/
def check_twice (e1 e2 : CheckEnv) :
    (Except String String × List Event) × (Except String String × List Event) :=
  (check_for_updates e1, check_for_updates e2)

/-- Environment of the background check spawned in `main`'s `setup` hook. -/
structure StartupEnv where
  updater : Except String Unit
  checkResult : Except String (Option Update)
  emitOk : Bool
  deriving Repr, DecidableEq

/-- Body of the task spawned in `setup` (after the 5-second sleep):
`if let Ok(updater) = app_handle.updater()` silently skips an updater error;
`match updater.check().await` emits `update-available {message, version}` on
`Ok(Some(update))` (discarding the emit result via `.ok()`) and does nothing
on every other outcome (`_ => {}`).  The task returns no value, so no error
can propagate out of it; its only output is the events handed to the sink. -/
def startup_task (env : StartupEnv) : List Event :=
  match env.updater with
  | Except.error _ => []
  | Except.ok _ =>
    match env.checkResult with
    | Except.ok (some update) =>
        (emitEvent env.emitOk
          (Event.updateAvailable ⟨update.body.getD "", update.version⟩)).2
    | _ => []

/-- The grace period before the startup check:
`tokio::time::sleep(Duration::from_secs(5))`. -/
def STARTUP_CHECK_DELAY_SECS : Nat := 5

/-- The background tasks spawned by `main`'s `setup` hook: exactly one call to
`tauri::async_runtime::spawn`, whose task sleeps `STARTUP_CHECK_DELAY_SECS`
seconds and then runs `startup_task`.  Each entry is (delay in seconds, the
events the task hands to the sink). -/
def setup_background_tasks (env : StartupEnv) : List (Nat × List Event) :=
  [(STARTUP_CHECK_DELAY_SECS, startup_task env)]

/-- Which of two concurrently issued commands a scheduled step belongs to. -/
inductive OpId
  | first
  | second
  deriving Repr, DecidableEq

/-- The suspension points inside one `download_and_install_update` invocation,
in program order: the release-source query (`updater.check().await`) and the
download-plus-apply (`update.download_and_install(..).await`), each with a
start and an end. -/
inductive OpPhase
  | fetchStart
  | fetchEnd
  | transferStart
  | transferEnd
  deriving Repr, DecidableEq

/-- Program order of the suspension points of one invocation. -/
def opPhases : List OpPhase :=
  [OpPhase.fetchStart, OpPhase.fetchEnd, OpPhase.transferStart, OpPhase.transferEnd]

/-- The phases of a schedule that belong to operation `i`, in schedule order. -/
def proj (s : List (OpId × OpPhase)) (i : OpId) : List OpPhase :=
  (s.filter (fun p => p.1 == i)).map (fun p => p.2)

/-- A schedule of two concurrent `download_and_install_update` invocations is
admissible when it preserves each invocation's own program order.  The two
command bodies share no lock, flag or coordinator state (their only shared
input is the `AppHandle`), so nothing in the code excludes any such
interleaving on the async runtime. -/
def admissible (s : List (OpId × OpPhase)) : Bool :=
  proj s OpId.first == opPhases && proj s OpId.second == opPhases

/-- Index of the step `(i, p)` in a schedule. -/
def posOf (s : List (OpId × OpPhase)) (i : OpId) (p : OpPhase) : Nat :=
  s.findIdx (fun q => q == (i, p))

/-- Both release-source fetches are in flight at once: each operation's fetch
starts before the other's fetch ends. -/
def fetchesOverlap (s : List (OpId × OpPhase)) : Bool :=
  decide (posOf s OpId.second OpPhase.fetchStart < posOf s OpId.first OpPhase.fetchEnd) &&
  decide (posOf s OpId.first OpPhase.fetchStart < posOf s OpId.second OpPhase.fetchEnd)

/-- A schedule in which the two fetches overlap and the two transfers
overlap. -/
def overlapSchedule : List (OpId × OpPhase) :=
  [(OpId.first, OpPhase.fetchStart), (OpId.second, OpPhase.fetchStart),
   (OpId.first, OpPhase.fetchEnd), (OpId.second, OpPhase.fetchEnd),
   (OpId.first, OpPhase.transferStart), (OpId.second, OpPhase.transferStart),
   (OpId.first, OpPhase.transferEnd), (OpId.second, OpPhase.transferEnd)]

/-- The empty progress callback contributes no events, whatever the chunks. -/
theorem runDownload_events_nil (chunks : List Nat) :
    (runDownload chunks).2.flatten = [] := by
  simp [runDownload, progressCallback]

/-- C1: when the release source reports a newer version `u.version` with
notes `u.body`, `check_for_updates` returns `Ok("Update available: {version}")`
and hands exactly one `update-available {message: body, version}` event to the
sink. -/
theorem check_update_available (env : CheckEnv) (u : Update)
    (hup : env.updater = Except.ok ()) (hchk : env.checkResult = Except.ok (some u)) :
    check_for_updates env =
      (Except.ok ("Update available: " ++ u.version),
       [Event.updateAvailable ⟨u.body.getD "", u.version⟩]) := by
  simp [check_for_updates, hup, hchk, emitEvent]

/-- C1 witness: the spec scenario — the source answers
{version: "1.2.0", notes: "bugfixes"}. -/
theorem check_update_available_witness :
    check_for_updates ⟨Except.ok (), Except.ok (some ⟨"1.2.0", some "bugfixes"⟩), true⟩ =
      (Except.ok ("Update available: " ++ "1.2.0"),
       [Event.updateAvailable ⟨"bugfixes", "1.2.0"⟩]) :=
  check_update_available _ ⟨"1.2.0", some "bugfixes"⟩ rfl rfl

/-- C2 counterexample: a run whose download and apply both succeed returns the
success string but hands no `update-installed` event to the sink. -/
theorem install_success_no_installed_event :
    (download_and_install_update
        ⟨Except.ok (), Except.ok (some ⟨"1.2.0", some "bugfixes"⟩), true, [5, 7],
         Except.ok ()⟩).result =
      Except.ok "Update downloaded and installed successfully" ∧
    (download_and_install_update
        ⟨Except.ok (), Except.ok (some ⟨"1.2.0", some "bugfixes"⟩), true, [5, 7],
         Except.ok ()⟩).events.any Event.isInstalledEvent = false :=
  ⟨rfl, rfl⟩

/-- C2 amended: on a fully successful install the command publishes only the
`update-download-started` event before the download and reports completion
through its returned status string; no installed event is published. -/
theorem install_success_events (env : InstallEnv) (u : Update)
    (hup : env.updater = Except.ok ()) (hchk : env.checkResult = Except.ok (some u))
    (hdl : env.downloadResult = Except.ok ()) :
    (download_and_install_update env).result =
      Except.ok "Update downloaded and installed successfully" ∧
    (download_and_install_update env).events = [Event.downloadStarted] ∧
    (download_and_install_update env).events.any Event.isInstalledEvent = false := by
  have h := runDownload_events_nil env.chunks
  refine ⟨?_, ?_, ?_⟩ <;>
    simp [download_and_install_update, hup, hchk, hdl, emitEvent, h, Event.isInstalledEvent]

/-- C2 witness for the amended claim at a concrete successful run. -/
theorem install_success_events_witness :
    (download_and_install_update
        ⟨Except.ok (), Except.ok (some ⟨"2.0.0", some "notes"⟩), true, [3, 4],
         Except.ok ()⟩).result =
      Except.ok "Update downloaded and installed successfully" ∧
    (download_and_install_update
        ⟨Except.ok (), Except.ok (some ⟨"2.0.0", some "notes"⟩), true, [3, 4],
         Except.ok ()⟩).events = [Event.downloadStarted] ∧
    (download_and_install_update
        ⟨Except.ok (), Except.ok (some ⟨"2.0.0", some "notes"⟩), true, [3, 4],
         Except.ok ()⟩).events.any Event.isInstalledEvent = false :=
  install_success_events _ ⟨"2.0.0", some "notes"⟩ rfl rfl rfl

/-- C3 counterexample: a run whose download fails returns the error but hands
no `update-failed` event to the sink (zero, where the claim requires exactly
one). -/
theorem install_failure_no_failed_event :
    (download_and_install_update
        ⟨Except.ok (), Except.ok (some ⟨"1.2.0", some "bugfixes"⟩), true, [5],
         Except.error "stream error at byte 5"⟩).result =
      Except.error "stream error at byte 5" ∧
    (download_and_install_update
        ⟨Except.ok (), Except.ok (some ⟨"1.2.0", some "bugfixes"⟩), true, [5],
         Except.error "stream error at byte 5"⟩).events.any Event.isFailedEvent = false :=
  ⟨rfl, rfl⟩

/-- C3 amended: when the download or apply step fails the command returns the
error to the caller and publishes no failed event; a subsequent install run is
a function of its own environment alone (no partial artifact or other state
carries over from the failed call), and any transfer it starts begins at byte
0. -/
theorem install_failure_contract (env : InstallEnv) (u : Update) (e : String)
    (hup : env.updater = Except.ok ()) (hchk : env.checkResult = Except.ok (some u))
    (hdl : env.downloadResult = Except.error e) :
    (download_and_install_update env).result = Except.error e ∧
    (download_and_install_update env).events.any Event.isFailedEvent = false ∧
    (∀ e2 : InstallEnv, (install_twice env e2).2 = download_and_install_update e2) ∧
    (∀ e2 : InstallEnv, ∀ u2 : Update, e2.updater = Except.ok () →
      e2.checkResult = Except.ok (some u2) →
      ((install_twice env e2).2).startOffset = some 0) := by
  have h := runDownload_events_nil env.chunks
  refine ⟨?_, ?_, fun e2 => rfl, ?_⟩
  · simp [download_and_install_update, hup, hchk, hdl]
  · simp [download_and_install_update, hup, hchk, hdl, emitEvent, h, Event.isFailedEvent]
  · intro e2 u2 h4 h5
    cases h6 : e2.downloadResult <;>
      simp [install_twice, download_and_install_update, h4, h5, h6]

/-- C3 witness for the amended claim: a concrete failed run followed by a
concrete retry. -/
theorem install_failure_contract_witness :
    (download_and_install_update
        ⟨Except.ok (), Except.ok (some ⟨"1.2.0", none⟩), true, [8],
         Except.error "connection reset"⟩).result = Except.error "connection reset" ∧
    (download_and_install_update
        ⟨Except.ok (), Except.ok (some ⟨"1.2.0", none⟩), true, [8],
         Except.error "connection reset"⟩).events.any Event.isFailedEvent = false ∧
    ((install_twice
        ⟨Except.ok (), Except.ok (some ⟨"1.2.0", none⟩), true, [8],
         Except.error "connection reset"⟩
        ⟨Except.ok (), Except.ok (some ⟨"1.2.0", none⟩), true, [8, 8],
         Except.ok ()⟩).2).startOffset = some 0 :=
  ⟨(install_failure_contract _ ⟨"1.2.0", none⟩ "connection reset" rfl rfl rfl).1,
   (install_failure_contract _ ⟨"1.2.0", none⟩ "connection reset" rfl rfl rfl).2.1,
   (install_failure_contract
      ⟨Except.ok (), Except.ok (some ⟨"1.2.0", none⟩), true, [8],
       Except.error "connection reset"⟩ ⟨"1.2.0", none⟩ "connection reset"
      rfl rfl rfl).2.2.2 _ ⟨"1.2.0", none⟩ rfl rfl⟩

/-- C4 counterexample: a successful download that received three chunks hands
no `update-download-progress` event to the sink. -/
theorem download_no_progress_events :
    (download_and_install_update
        ⟨Except.ok (), Except.ok (some ⟨"1.2.0", some "bugfixes"⟩), true, [10, 20, 30],
         Except.ok ()⟩).result =
      Except.ok "Update downloaded and installed successfully" ∧
    (download_and_install_update
        ⟨Except.ok (), Except.ok (some ⟨"1.2.0", some "bugfixes"⟩), true, [10, 20, 30],
         Except.ok ()⟩).events.any Event.isProgressEvent = false :=
  ⟨rfl, rfl⟩

/-- C4 amended: the download invokes the progress callback once per received
chunk, but the callback body is empty, so it emits nothing and no
`update-download-progress` event is published during any run. -/
theorem download_progress_callback_silent (chunks : List Nat) (env : InstallEnv) :
    (runDownload chunks).2.length = chunks.length ∧
    (runDownload chunks).2.flatten = [] ∧
    (download_and_install_update env).events.any Event.isProgressEvent = false := by
  refine ⟨by simp [runDownload], runDownload_events_nil chunks, ?_⟩
  rcases env with ⟨up, chk, eo, cs, dl⟩
  have h := runDownload_events_nil cs
  cases up with
  | error e => rfl
  | ok _ =>
    cases chk with
    | error e => rfl
    | ok o =>
      cases o with
      | none => rfl
      | some u =>
        cases dl with
        | ok _ =>
          simp [download_and_install_update, emitEvent, h, Event.isProgressEvent]
        | error e =>
          simp [download_and_install_update, emitEvent, h, Event.isProgressEvent]

/-- C5 counterexample: the schedule in which both fetches and both transfers
overlap is admissible (nothing in the code serializes the two command
invocations), and both calls complete with their own success results — the
second is neither rejected with a busy error nor coalesced into the first's
outcome (it downloads its own, different candidate). -/
theorem concurrent_installs_counterexample :
    admissible overlapSchedule = true ∧
    fetchesOverlap overlapSchedule = true ∧
    (download_and_install_update
        ⟨Except.ok (), Except.ok (some ⟨"1.2.0", none⟩), true, [5], Except.ok ()⟩).result =
      Except.ok "Update downloaded and installed successfully" ∧
    (download_and_install_update
        ⟨Except.ok (), Except.ok (some ⟨"1.3.0", none⟩), true, [5], Except.ok ()⟩).result =
      Except.ok "Update downloaded and installed successfully" ∧
    (download_and_install_update
        ⟨Except.ok (), Except.ok (some ⟨"1.3.0", none⟩), true, [5], Except.ok ()⟩).candidate ≠
      (download_and_install_update
        ⟨Except.ok (), Except.ok (some ⟨"1.2.0", none⟩), true, [5], Except.ok ()⟩).candidate :=
  ⟨by decide, by decide, rfl, rfl, by decide⟩

/-- C5 amended: the code contains no serialization guard, so two concurrent
check/install requests run independently: each performs its own fetch and
download, the second is neither rejected with a busy error nor coalesced into
the first's result, and the interleaving in which both fetches (and both
transfers) are simultaneously in flight is admissible. -/
theorem concurrent_installs_independent (e1 e2 : InstallEnv) (u1 u2 : Update)
    (h1 : e1.updater = Except.ok ()) (h2 : e1.checkResult = Except.ok (some u1))
    (h3 : e1.downloadResult = Except.ok ())
    (h4 : e2.updater = Except.ok ()) (h5 : e2.checkResult = Except.ok (some u2))
    (h6 : e2.downloadResult = Except.ok ()) :
    (install_twice e1 e2).1.result =
      Except.ok "Update downloaded and installed successfully" ∧
    (install_twice e1 e2).2.result =
      Except.ok "Update downloaded and installed successfully" ∧
    (install_twice e1 e2).1.candidate = some u1 ∧
    (install_twice e1 e2).2.candidate = some u2 ∧
    admissible overlapSchedule = true ∧
    fetchesOverlap overlapSchedule = true := by
  refine ⟨?_, ?_, ?_, ?_, by decide, by decide⟩ <;>
    simp [install_twice, download_and_install_update, h1, h2, h3, h4, h5, h6, emitEvent]

/-- C5 witness for the amended claim at two concrete environments. -/
theorem concurrent_installs_independent_witness :
    (install_twice
        ⟨Except.ok (), Except.ok (some ⟨"1.4.0", none⟩), true, [6], Except.ok ()⟩
        ⟨Except.ok (), Except.ok (some ⟨"1.5.0", none⟩), true, [6], Except.ok ()⟩).1.result =
      Except.ok "Update downloaded and installed successfully" ∧
    (install_twice
        ⟨Except.ok (), Except.ok (some ⟨"1.4.0", none⟩), true, [6], Except.ok ()⟩
        ⟨Except.ok (), Except.ok (some ⟨"1.5.0", none⟩), true, [6], Except.ok ()⟩).2.result =
      Except.ok "Update downloaded and installed successfully" ∧
    (install_twice
        ⟨Except.ok (), Except.ok (some ⟨"1.4.0", none⟩), true, [6], Except.ok ()⟩
        ⟨Except.ok (), Except.ok (some ⟨"1.5.0", none⟩), true, [6], Except.ok ()⟩).1.candidate =
      some ⟨"1.4.0", none⟩ ∧
    (install_twice
        ⟨Except.ok (), Except.ok (some ⟨"1.4.0", none⟩), true, [6], Except.ok ()⟩
        ⟨Except.ok (), Except.ok (some ⟨"1.5.0", none⟩), true, [6], Except.ok ()⟩).2.candidate =
      some ⟨"1.5.0", none⟩ ∧
    admissible overlapSchedule = true ∧
    fetchesOverlap overlapSchedule = true :=
  concurrent_installs_independent _ _ ⟨"1.4.0", none⟩ ⟨"1.5.0", none⟩
    rfl rfl rfl rfl rfl rfl

/-- C6: an install with no prior check performs its own query; when that query
reports no newer release the command returns "No updates available", hands no
event to the sink (in particular no `update-download-started`), and never
enters the download phase. -/
theorem install_no_update (env : InstallEnv)
    (hup : env.updater = Except.ok ()) (hchk : env.checkResult = Except.ok none) :
    download_and_install_update env =
      ⟨Except.ok "No updates available", [], none, none⟩ := by
  simp [download_and_install_update, hup, hchk]

/-- C6 witness at a concrete no-update environment. -/
theorem install_no_update_witness :
    download_and_install_update ⟨Except.ok (), Except.ok none, true, [], Except.ok ()⟩ =
      ⟨Except.ok "No updates available", [], none, none⟩ :=
  install_no_update _ rfl rfl

/-- C7: `setup` spawns exactly one background check per process run, delayed
by the fixed 5-second grace period; the task propagates no error (its only
output is the event list), emits nothing when the updater is unavailable, the
check fails, or no update exists, and hands exactly one `update-available`
event to the sink when the check finds an update. -/
theorem startup_check_contract (env : StartupEnv) :
    (setup_background_tasks env).length = 1 ∧
    setup_background_tasks env = [(STARTUP_CHECK_DELAY_SECS, startup_task env)] ∧
    STARTUP_CHECK_DELAY_SECS = 5 ∧
    (∀ e, env.checkResult = Except.error e → startup_task env = []) ∧
    (env.checkResult = Except.ok none → startup_task env = []) ∧
    (∀ e, env.updater = Except.error e → startup_task env = []) ∧
    (∀ u, env.updater = Except.ok () → env.checkResult = Except.ok (some u) →
      startup_task env = [Event.updateAvailable ⟨u.body.getD "", u.version⟩]) := by
  refine ⟨rfl, rfl, rfl, ?_, ?_, ?_, ?_⟩
  · intro e h
    cases hu : env.updater <;> simp [startup_task, hu, h]
  · intro h
    cases hu : env.updater <;> simp [startup_task, hu, h]
  · intro e h
    simp [startup_task, h]
  · intro u h1 h2
    simp [startup_task, h1, h2, emitEvent]

/-- C7 witness: the found-update case emits once; the failed-check case emits
nothing, and the spawn list still has exactly one entry. -/
theorem startup_check_contract_witness :
    startup_task ⟨Except.ok (), Except.ok (some ⟨"1.2.0", some "bugfixes"⟩), true⟩ =
      [Event.updateAvailable ⟨"bugfixes", "1.2.0"⟩] ∧
    (setup_background_tasks ⟨Except.ok (), Except.error "offline", true⟩).length = 1 ∧
    startup_task ⟨Except.ok (), Except.error "offline", true⟩ = [] :=
  ⟨(startup_check_contract _).2.2.2.2.2.2 ⟨"1.2.0", some "bugfixes"⟩ rfl rfl,
   (startup_check_contract _).1,
   (startup_check_contract _).2.2.2.1 "offline" rfl⟩

/-- C8: a check whose query fails returns the underlying cause as the error,
hands no event to the sink, and the failure is not sticky: the check after a
failed one is exactly a fresh check of its own environment. -/
theorem check_query_failure (env : CheckEnv) (e : String)
    (hup : env.updater = Except.ok ()) (hchk : env.checkResult = Except.error e) :
    check_for_updates env = (Except.error e, []) ∧
    (∀ env2 : CheckEnv, (check_twice env env2).2 = check_for_updates env2) :=
  ⟨by simp [check_for_updates, hup, hchk], fun env2 => rfl⟩

/-- C8 witness: a concrete failed check followed by a concrete fresh check. -/
theorem check_query_failure_witness :
    check_for_updates ⟨Except.ok (), Except.error "timeout", true⟩ =
      (Except.error "timeout", []) ∧
    (check_twice ⟨Except.ok (), Except.error "timeout", true⟩
        ⟨Except.ok (), Except.ok none, true⟩).2 =
      check_for_updates ⟨Except.ok (), Except.ok none, true⟩ :=
  ⟨(check_query_failure _ "timeout" rfl rfl).1,
   (check_query_failure ⟨Except.ok (), Except.error "timeout", true⟩ "timeout"
      rfl rfl).2 _⟩

/-- C9: `download_and_install_update` performs its own query and hands exactly
the candidate that query returns to `download_and_install`; no candidate
retained from an earlier `check_for_updates` or install call is consulted —
the install run after any prior call equals the install run alone. -/
theorem install_fresh_query (env : InstallEnv) (u : Update)
    (hup : env.updater = Except.ok ()) (hchk : env.checkResult = Except.ok (some u)) :
    (download_and_install_update env).candidate = some u ∧
    (∀ c : CheckEnv, (check_then_install c env).2 = download_and_install_update env) ∧
    (∀ e1 : InstallEnv, (install_twice e1 env).2 = download_and_install_update env) := by
  refine ⟨?_, fun c => rfl, fun e1 => rfl⟩
  cases hdl : env.downloadResult <;>
    simp [download_and_install_update, hup, hchk, hdl, emitEvent]

/-- C9 witness: the installed candidate is the one this call's query returned,
also after an unrelated earlier check. -/
theorem install_fresh_query_witness :
    (download_and_install_update
        ⟨Except.ok (), Except.ok (some ⟨"3.1.0", some "n"⟩), true, [9], Except.ok ()⟩).candidate =
      some ⟨"3.1.0", some "n"⟩ ∧
    (check_then_install ⟨Except.ok (), Except.ok (some ⟨"3.0.0", some "old"⟩), true⟩
        ⟨Except.ok (), Except.ok (some ⟨"3.1.0", some "n"⟩), true, [9], Except.ok ()⟩).2 =
      download_and_install_update
        ⟨Except.ok (), Except.ok (some ⟨"3.1.0", some "n"⟩), true, [9], Except.ok ()⟩ :=
  ⟨(install_fresh_query _ ⟨"3.1.0", some "n"⟩ rfl rfl).1,
   (install_fresh_query
      ⟨Except.ok (), Except.ok (some ⟨"3.1.0", some "n"⟩), true, [9], Except.ok ()⟩
      ⟨"3.1.0", some "n"⟩ rfl rfl).2.1 _⟩

/-- C10: the result of `check_for_updates` never depends on whether the emit
succeeds: the `.ok()` discard means an emit failure is never turned into an
error result, and the found-update path returns its success string even with a
failing sink. -/
theorem check_result_ignores_emit (updaterR : Except String Unit)
    (checkR : Except String (Option Update)) (b1 b2 : Bool) :
    (check_for_updates ⟨updaterR, checkR, b1⟩).1 =
      (check_for_updates ⟨updaterR, checkR, b2⟩).1 ∧
    (∀ u, updaterR = Except.ok () → checkR = Except.ok (some u) →
      (check_for_updates ⟨updaterR, checkR, false⟩).1 =
        Except.ok ("Update available: " ++ u.version)) := by
  constructor
  · cases updaterR with
    | error e => rfl
    | ok _ =>
      cases checkR with
      | error e => rfl
      | ok o => cases o <;> rfl
  · intro u h1 h2
    simp [check_for_updates, h1, h2, emitEvent]

/-- C10 witness: with a failing sink the found-update check still returns its
success string. -/
theorem check_result_ignores_emit_witness :
    (check_for_updates ⟨Except.ok (), Except.ok (some ⟨"1.2.0", some "bugfixes"⟩), false⟩).1 =
      Except.ok ("Update available: " ++ "1.2.0") :=
  (check_result_ignores_emit _ _ true false).2 ⟨"1.2.0", some "bugfixes"⟩ rfl rfl
